import Mathlib

/-!
Shallow embedding of `src/lib/my_picar_utils.py` (picar motion-control core).

Numbers are modelled as exact rationals (`ℚ`): the Python code computes with
IEEE doubles, and every claim checked here compares quantities whose distance
is many orders of magnitude above double rounding error, so the exact-rational
model and the float code decide every tested comparison identically.
`math.pi` is modelled by the exact rational value of the IEEE-754 double
`math.pi` (884279719003555 / 2^48).

Python exceptions are modelled with `Except String`: a method body that raises
is translated to `Except.error` carrying the exception class and message.
Calls into the actuator backend (`self._fw` / `self._bw`) are modelled as an
emitted event trace (`Ev`), and the interface object's own attributes as a
state record (`HW`).
-/

namespace Picar

/-- The exact rational value of the IEEE-754 double `math.pi` used by the
Python code (`math.pi.as_integer_ratio() = (884279719003555, 2^48)`). -/
def mathPi : ℚ := 884279719003555 / 281474976710656

/-- Python `int(x)` on a real number: truncation toward zero
(`Int.tdiv` of the reduced numerator by the denominator). -/
def pyInt (q : ℚ) : ℤ := Int.tdiv q.num q.den

/-- One primitive call observable at the actuator backend, in the order the
dispatcher issues them: front-wheel `turn`, front-wheel `turn_straight`,
back-wheel `forward` / `backward` / `stop`, back-wheel speed assignment
(`self._bw.speed = v`, the backend set-speed primitive), and `sleep`. -/
inductive Ev where
  | fwTurn (angle : ℚ)
  | fwTurnStraight
  | bwForward
  | bwBackward
  | bwStop
  | bwSetSpeed (v : ℤ)
  | sleep (d : ℚ)
deriving DecidableEq

/-- Drive direction state held by the back-wheel backend (set by its
`forward()` / `backward()` primitives, initialized to forward at the end of
`PicarHardwareInterface.__init__`). -/
inductive BwDir where
  | forward
  | backward
deriving DecidableEq

/-- State of a `PicarHardwareInterface` instance together with the part of the
backend state the claims talk about.

* `straightAngle` models the backend calibration offset
  `self._fw._straight_angle`;
* `steering` models the attribute `self._steering`; it is NOT initialized in
  `__init__` and is only assigned (to 0) in `turn_wheels_straight`, hence an
  `Option`;
* `speed` models the attribute `self._speed`, likewise only assigned in
  `stop_motors`;
* `bwDirection` models the back-wheel backend's drive-direction state. -/
structure HW where
  straightAngle : ℚ
  steering : Option ℚ
  speed : Option ℚ
  bwDirection : BwDir
deriving DecidableEq

/-- Method `turn_wheels(steer)` of `PicarHardwareInterface`: forwards
`steer + self._fw._straight_angle` to the backend's `turn`. -/
def turn_wheels (hw : HW) (steer : ℚ) : HW × List Ev :=
  (hw, [Ev.fwTurn (steer + hw.straightAngle)])

/-- Method `turn_wheels_straight(overshoot=10, delay=0.05)` of
`PicarHardwareInterface`: `turn_wheels(overshoot)`, `sleep(delay)`,
`turn_wheels(-overshoot)`, `sleep(delay)`, backend `turn_straight()`, then
`self._steering = 0`. -/
def turn_wheels_straight (hw : HW) (overshoot delay : ℚ) : HW × List Ev :=
  let p1 := turn_wheels hw overshoot
  let p2 := turn_wheels p1.1 (-overshoot)
  ({ p2.1 with steering := some 0 },
    p1.2 ++ [Ev.sleep delay] ++ p2.2 ++ [Ev.sleep delay] ++ [Ev.fwTurnStraight])

/-- Method `stop_motors()` of `PicarHardwareInterface`: backend `stop()`,
then `self._speed = 0`. -/
def stop_motors (hw : HW) : HW × List Ev :=
  ({ hw with speed := some 0 }, [Ev.bwStop])

/-- Method `apply_controls(speed, steer, direction)` of
`PicarHardwareInterface` (source lines 85–120).

Faithful points to note against the source:
* `steer_angle = direction*int(steer)` is computed but never read afterwards:
  the steering dispatch below tests and forwards the raw `steer`;
* the invalid-direction branch executes `self.halt()`, but no method `halt`
  exists on the class, so that call raises `AttributeError` before any
  backend call and before the diagnostic `print` (whose format argument
  `self._direction` is also an unset attribute);
* `turn_wheels_straight` is invoked with its defaults `overshoot=10`,
  `delay=0.05`;
* the nonzero-speed branch assigns `self._bw.speed = speed` with the
  truncated integer speed. -/
def apply_controls (hw : HW) (speed steer direction : ℚ) : List Ev × Except String HW :=
  let steer_angle := direction * (pyInt steer : ℚ)
  let speedInt : ℤ := pyInt |speed|
  if direction = 1 ∨ direction = -1 ∨ direction = 0 then
    let hw1 := if direction = 1 then { hw with bwDirection := BwDir.forward }
      else if direction = -1 then { hw with bwDirection := BwDir.backward }
      else hw
    let t1 : List Ev := if direction = 1 then [Ev.bwForward]
      else if direction = -1 then [Ev.bwBackward]
      else []
    let p2 := if steer = 0 then turn_wheels_straight hw1 10 (1 / 20)
      else turn_wheels hw1 steer
    let p3 := if speedInt = 0 then stop_motors p2.1
      else (p2.1, [Ev.bwSetSpeed speedInt])
    (t1 ++ p2.2 ++ p3.2, Except.ok p3.1)
  else
    ([], Except.error "AttributeError: PicarHardwareInterface object has no attribute halt")

/-- Recognizer for the backend `stop()` event. -/
def isStop : Ev → Bool
  | Ev.bwStop => true
  | _ => false

/-- Recognizer for a backend speed assignment (set-speed) event. -/
def isSetSpeed : Ev → Bool
  | Ev.bwSetSpeed _ => true
  | _ => false

/-- A sample interface state: calibration offset 0, `_steering` and `_speed`
not yet assigned, backend direction forward (as `__init__` leaves it). -/
def hw0 : HW :=
  { straightAngle := 0, steering := none, speed := none, bwDirection := BwDir.forward }

/-- Modelled from the spec: the external `my_pid.myPID` primitive (spec §4.1,
module `my_pid` is not part of the sources under review). Gains `Kp, Ki, Kd`
plus mutable `integral_accum` and `prev_error`. -/
structure myPID where
  Kp : ℚ
  Ki : ℚ
  Kd : ℚ
  integral_accum : ℚ
  prev_error : ℚ
deriving DecidableEq

/-- Modelled from the spec: `myPID.input(error, dt)` (spec §4.1): the new
integral accumulator is stored first, the derivative uses the old
`prev_error`, a zero `dt` contributes no derivative term, and `prev_error`
is updated afterwards. Returns the output together with the updated state. -/
def myPID.input (p : myPID) (error dt : ℚ) : ℚ × myPID :=
  let integral_accum := p.integral_accum + error * dt
  let derivative := if dt = 0 then 0 else p.Kd * (error - p.prev_error) / dt
  (p.Kp * error + p.Ki * integral_accum + derivative,
    { p with integral_accum := integral_accum, prev_error := error })

/-- State of a `MyPicarController`: the three owned PID loops. -/
structure MyPicarController where
  rho_controller : myPID
  alpha_controller : myPID
  beta_controller : myPID
deriving DecidableEq

/-- Modelled from the spec: `within_pi` from the external `helpers` module —
shortest-angle normalization of an angle into `[-π, π]` (spec §4.2). Only its
existence matters for the claims below: `STEER`'s zero-speed behavior is
decided before it is applied. -/
def within_pi (x : ℚ) : ℚ := x - 2 * mathPi * round (x / (2 * mathPi))

/-- Method `SPEED(rho, dt=1)` of `MyPicarController`: feeds `rho` to the rho
PID loop. -/
def MyPicarController.SPEED (c : MyPicarController) (rho dt : ℚ) : ℚ × MyPicarController :=
  let p := c.rho_controller.input rho dt
  (p.1, { c with rho_controller := p.2 })

/-- Method `STEER(speed, alpha, beta, L, dt=1)` of `MyPicarController`
(source lines 153–168): feed `alpha` and `beta` to their PID loops,
`dh = a + b`, `s = abs(speed)`, `steer = atan(dh*L/s)`, then `within_pi`.
The division `dh*L/s` is Python float division: when `s = 0` it raises
`ZeroDivisionError` (Python raises for float division by zero even when the
numerator is also 0). The math-library `atan` is kept abstract as a parameter
`atanF` since no claim depends on its values; the result is stated for every
interpretation of it. -/
def MyPicarController.STEER (atanF : ℚ → ℚ) (c : MyPicarController)
    (speed alpha beta L dt : ℚ) : Except String ℚ × MyPicarController :=
  let pa := c.alpha_controller.input alpha dt
  let pb := c.beta_controller.input beta dt
  let dh := pa.1 + pb.1
  let s := |speed|
  let c2 := { c with alpha_controller := pa.2, beta_controller := pb.2 }
  if s = 0 then (Except.error "ZeroDivisionError: float division by zero", c2)
  else (Except.ok (within_pi (atanF (dh * L / s))), c2)

/-- Method `DIRECTION(alpha, dt=1)` of `MyPicarController` (source lines
170–177): `abs(alpha) > (pi/2 + 1e-4)`. It reads nothing from `self` and
ignores `dt`, which the embedding makes structural by taking both as unused
arguments. The literal `1e-4` denotes the IEEE double nearest 1/10000; it is
modelled as 1/10000 exactly, a deviation of under `10^-20`, immaterial to
every comparison below. -/
def MyPicarController.DIRECTION (_c : MyPicarController) (alpha _dt : ℚ) : Bool :=
  if |alpha| > mathPi / 2 + 1 / 10000 then true else false

/-- The controller built by `MyPicarController()` with all gain defaults
(`kpr=1`, every other gain 0) and fresh PID state. -/
def default_controller : MyPicarController :=
  { rho_controller := { Kp := 1, Ki := 0, Kd := 0, integral_accum := 0, prev_error := 0 }
    alpha_controller := { Kp := 0, Ki := 0, Kd := 0, integral_accum := 0, prev_error := 0 }
    beta_controller := { Kp := 0, Ki := 0, Kd := 0, integral_accum := 0, prev_error := 0 } }

/-- State of a `PicarUnitConverter` instance: the five attributes set by its
constructor (`world_speed_scale`, `world_angle_scale`, `world_time_scale`,
`world_speed_offset`, `world_angle_offset`). Note that no attribute named
`time_scale` exists. -/
structure PicarUnitConverter where
  world_speed_scale : ℚ
  world_angle_scale : ℚ
  world_time_scale : ℚ
  world_speed_offset : ℚ
  world_angle_offset : ℚ
deriving DecidableEq

/-- Method `speed_picar2world` of `PicarUnitConverter`:
`world_speed_scale * v + world_speed_offset`. -/
def PicarUnitConverter.speed_picar2world (c : PicarUnitConverter) (picar_speed : ℚ) : ℚ :=
  c.world_speed_scale * picar_speed + c.world_speed_offset

/-- Method `angle_picar2world` of `PicarUnitConverter`:
`world_angle_scale * a + world_angle_offset`. -/
def PicarUnitConverter.angle_picar2world (c : PicarUnitConverter) (picar_angle : ℚ) : ℚ :=
  c.world_angle_scale * picar_angle + c.world_angle_offset

/-- Method `time_picar2world` of `PicarUnitConverter`:
`world_time_scale * t` (scale only, no offset). -/
def PicarUnitConverter.time_picar2world (c : PicarUnitConverter) (picar_time : ℚ) : ℚ :=
  c.world_time_scale * picar_time

/-- Method `speed_world2picar` of `PicarUnitConverter`:
`(w - world_speed_offset) / world_speed_scale`. -/
def PicarUnitConverter.speed_world2picar (c : PicarUnitConverter) (world_speed : ℚ) : ℚ :=
  (world_speed - c.world_speed_offset) / c.world_speed_scale

/-- Method `angle_world2picar` of `PicarUnitConverter`:
`(w - world_angle_offset) / world_angle_scale`. -/
def PicarUnitConverter.angle_world2picar (c : PicarUnitConverter) (world_angle : ℚ) : ℚ :=
  (world_angle - c.world_angle_offset) / c.world_angle_scale

/-- Method `time_world2picar` of `PicarUnitConverter`: `t / world_time_scale`. -/
def PicarUnitConverter.time_world2picar (c : PicarUnitConverter) (world_time : ℚ) : ℚ :=
  world_time / c.world_time_scale

/-- Method `length_picar2world` of `PicarUnitConverter` (source lines
212–219). Its body is
`return speed_picar2world(picar_length) * self.time_scale`: the bare name
`speed_picar2world` is looked up in the module's global namespace, where it
is not defined (it exists only as a method of the class), so every call
raises `NameError` before any arithmetic happens. (Even if it resolved,
`self.time_scale` is not an attribute the constructor sets — it sets
`world_time_scale` — so an `AttributeError` would follow.) -/
def PicarUnitConverter.length_picar2world (_c : PicarUnitConverter) (_picar_length : ℚ) :
    Except String ℚ :=
  Except.error "NameError: name speed_picar2world is not defined"

/-- Method `length_world2picar` of `PicarUnitConverter` (source lines
232–233). Its body is
`return speed_world2picar(world_length) / self.time_scale`: the bare name
`speed_world2picar` is not a module-level name, so every call raises
`NameError` (and `self.time_scale` does not exist either). -/
def PicarUnitConverter.length_world2picar (_c : PicarUnitConverter) (_world_length : ℚ) :
    Except String ℚ :=
  Except.error "NameError: name speed_world2picar is not defined"

/-- The length conversion the spec states as the contract
(`length_to_world(l) = speed_to_world(l) * time_scale_value` over the
instance's own attributes), for comparison with the source behavior. -/
def PicarUnitConverter.length_picar2world_spec (c : PicarUnitConverter) (picar_length : ℚ) : ℚ :=
  c.speed_picar2world picar_length * c.world_time_scale

/-- The inverse length conversion the spec states as the contract
(`length_world2picar(w) = speed_world2picar(w) / time_scale_value`). -/
def PicarUnitConverter.length_world2picar_spec (c : PicarUnitConverter) (world_length : ℚ) : ℚ :=
  c.speed_world2picar world_length / c.world_time_scale

/-- A sample converter: all scales 1, all offsets 0
(`PicarUnitConverter(1, 1)` with constructor defaults). -/
def cUnit : PicarUnitConverter :=
  { world_speed_scale := 1, world_angle_scale := 1, world_time_scale := 1
    world_speed_offset := 0, world_angle_offset := 0 }

/- ------------------------------------------------------------------ -/
/- Helper lemmas (shared; not tied to any single claim).              -/
/- ------------------------------------------------------------------ -/

lemma num_lt_den_of_lt_one {q : ℚ} (h : q < 1) : q.num < (q.den : ℤ) := by
  have hd : (0 : ℚ) < (q.den : ℚ) := by exact_mod_cast q.den_pos
  have hq : (q.num : ℚ) = q * (q.den : ℚ) := by
    field_simp [Rat.num_div_den]
  have h2 : q * (q.den : ℚ) < 1 * (q.den : ℚ) := mul_lt_mul_of_pos_right h hd
  rw [one_mul, ← hq] at h2
  exact_mod_cast h2

lemma pyInt_eq_zero {q : ℚ} (h0 : 0 ≤ q) (h1 : q < 1) : pyInt q = 0 :=
  Int.tdiv_eq_zero_of_lt (Rat.num_nonneg.mpr h0) (num_lt_den_of_lt_one h1)

lemma apply_controls_speed_dispatch (hw : HW) (speed steer direction : ℚ)
    (hdir : direction = 1 ∨ direction = -1 ∨ direction = 0) :
    ((apply_controls hw speed steer direction).1.countP isStop
        = if pyInt |speed| = 0 then 1 else 0)
  ∧ ((apply_controls hw speed steer direction).1.countP isSetSpeed
        = if pyInt |speed| = 0 then 0 else 1)
  ∧ (pyInt |speed| ≠ 0 →
        Ev.bwSetSpeed (pyInt |speed|) ∈ (apply_controls hw speed steer direction).1) := by
  unfold apply_controls
  rw [if_pos hdir]
  rcases hdir with h | h | h <;> subst h <;>
    [skip;
     rw [if_neg (by norm_num), if_pos rfl, if_neg (by norm_num), if_pos rfl];
     rw [if_neg (by norm_num), if_neg (by norm_num), if_neg (by norm_num),
        if_neg (by norm_num)]] <;>
  · by_cases hsteer : steer = 0 <;>
      by_cases hspeed : pyInt |speed| = 0 <;>
        simp [hsteer, hspeed, turn_wheels, turn_wheels_straight, stop_motors,
          isStop, isSetSpeed]

/- ------------------------------------------------------------------ -/
/- Claim theorems.                                                    -/
/- ------------------------------------------------------------------ -/

/-- C1 (code evaluated at the failing input): both length conversions of the
unit converter raise `NameError` on every call — here at input 1 on the
identity converter — instead of computing
`speed conversion * time scale` as the claim states. The value the claim
demands at this input is 1 (`length_picar2world_spec`), so the code cannot
satisfy the stated contract. -/
theorem C1_length_conversion_raises :
    PicarUnitConverter.length_picar2world cUnit 1
        = Except.error "NameError: name speed_picar2world is not defined"
  ∧ PicarUnitConverter.length_world2picar cUnit 1
        = Except.error "NameError: name speed_world2picar is not defined"
  ∧ PicarUnitConverter.length_picar2world_spec cUnit 1 = 1 := by
  refine ⟨rfl, rfl, ?_⟩
  norm_num [PicarUnitConverter.length_picar2world_spec, PicarUnitConverter.speed_picar2world,
    cUnit]

/-- C2 counterexample: at the identity converter (all scales 1, offsets 0,
a valid parameter set) and input 1, the length round trip does not return 1 —
the very first conversion raises `NameError`, so `to_device(to_world(1))`
is an error, refuting the claim's "for each of the four quantities". -/
theorem C2_counterexample :
    Except.bind (PicarUnitConverter.length_picar2world cUnit 1)
        (PicarUnitConverter.length_world2picar cUnit)
      = Except.error "NameError: name speed_picar2world is not defined" := rfl

/-- C2 (amended): for every converter whose three scale factors are nonzero
and every input, the round trips hold exactly in both compositions for speed,
angle and time; for length both conversions raise `NameError` on every call,
so no length round trip exists. -/
theorem C2_roundtrips (c : PicarUnitConverter) (x : ℚ)
    (hs : c.world_speed_scale ≠ 0) (ha : c.world_angle_scale ≠ 0)
    (ht : c.world_time_scale ≠ 0) :
    c.speed_world2picar (c.speed_picar2world x) = x
  ∧ c.speed_picar2world (c.speed_world2picar x) = x
  ∧ c.angle_world2picar (c.angle_picar2world x) = x
  ∧ c.angle_picar2world (c.angle_world2picar x) = x
  ∧ c.time_world2picar (c.time_picar2world x) = x
  ∧ c.time_picar2world (c.time_world2picar x) = x
  ∧ c.length_picar2world x = Except.error "NameError: name speed_picar2world is not defined"
  ∧ c.length_world2picar x = Except.error "NameError: name speed_world2picar is not defined" := by
  refine ⟨?_, ?_, ?_, ?_, ?_, ?_, rfl, rfl⟩ <;>
    field_simp [PicarUnitConverter.speed_picar2world, PicarUnitConverter.speed_world2picar,
      PicarUnitConverter.angle_picar2world, PicarUnitConverter.angle_world2picar,
      PicarUnitConverter.time_picar2world, PicarUnitConverter.time_world2picar]

/-- C2 witness: the amended round-trip theorem applied to the converter with
speed scale 2, angle scale 3, time scale 5, speed offset 7, angle offset 11,
at input 13. -/
theorem C2_roundtrips_witness :
    (PicarUnitConverter.speed_world2picar ⟨2, 3, 5, 7, 11⟩
        (PicarUnitConverter.speed_picar2world ⟨2, 3, 5, 7, 11⟩ 13) = 13)
  ∧ PicarUnitConverter.speed_picar2world ⟨2, 3, 5, 7, 11⟩
        (PicarUnitConverter.speed_world2picar ⟨2, 3, 5, 7, 11⟩ 13) = 13
  ∧ PicarUnitConverter.angle_world2picar ⟨2, 3, 5, 7, 11⟩
        (PicarUnitConverter.angle_picar2world ⟨2, 3, 5, 7, 11⟩ 13) = 13
  ∧ PicarUnitConverter.angle_picar2world ⟨2, 3, 5, 7, 11⟩
        (PicarUnitConverter.angle_world2picar ⟨2, 3, 5, 7, 11⟩ 13) = 13
  ∧ PicarUnitConverter.time_world2picar ⟨2, 3, 5, 7, 11⟩
        (PicarUnitConverter.time_picar2world ⟨2, 3, 5, 7, 11⟩ 13) = 13
  ∧ PicarUnitConverter.time_picar2world ⟨2, 3, 5, 7, 11⟩
        (PicarUnitConverter.time_world2picar ⟨2, 3, 5, 7, 11⟩ 13) = 13
  ∧ PicarUnitConverter.length_picar2world ⟨2, 3, 5, 7, 11⟩ 13
        = Except.error "NameError: name speed_picar2world is not defined"
  ∧ PicarUnitConverter.length_world2picar ⟨2, 3, 5, 7, 11⟩ 13
        = Except.error "NameError: name speed_world2picar is not defined" :=
  C2_roundtrips ⟨2, 3, 5, 7, 11⟩ 13 (by norm_num) (by norm_num) (by norm_num)

/-- C3 (code evaluated at the failing input): `apply_controls(1, 5, -1)`
issues `turn_wheels(5)` — the backend sees `turn(5)` with calibration offset
0 — not `turn_wheels(-5)` as the claim's `direction * steer` requires; and
`apply_controls(1, 5, 0)`, whose direction-resolved steer is `0 * 5 = 0`,
issues `turn_wheels(5)` instead of the `turn_wheels_straight()` the claim
requires. The assignment `steer_angle = direction*int(steer)` in the source
is dead: the steering dispatch reads the raw `steer`. -/
theorem C3_raw_steer_dispatched :
    (apply_controls hw0 1 5 (-1)).1 = [Ev.bwBackward, Ev.fwTurn 5, Ev.bwSetSpeed 1]
  ∧ (apply_controls hw0 1 5 0).1 = [Ev.fwTurn 5, Ev.bwSetSpeed 1] := by
  constructor <;>
    norm_num [apply_controls, turn_wheels, turn_wheels_straight, stop_motors, hw0, pyInt]

/-- C4 (code evaluated at the failing input): `apply_controls(3, 0, 7)` does
not halt and report a diagnostic — the invalid-direction branch calls the
nonexistent method `self.halt()`, so the call raises `AttributeError` with an
empty backend trace: no `set_forward`/`set_backward`, but also no stop, and
the exception propagates to the caller. -/
theorem C4_invalid_direction_raises :
    apply_controls hw0 3 0 7
      = ([], Except.error "AttributeError: PicarHardwareInterface object has no attribute halt") := by
  norm_num [apply_controls]

/-- C5 counterexample: calling `STEER` with `speed = 0` on the
default-constructed controller (with the identity in place of `atan`) is not
handled: it yields the uncontrolled `ZeroDivisionError` of the division
`atan(dh*L/s)` with `s = 0`, rather than a documented return value. -/
theorem C5_counterexample :
    (MyPicarController.STEER (fun x => x) default_controller 0 (1 / 2) (1 / 2) 1 1).1
      = Except.error "ZeroDivisionError: float division by zero" := by
  norm_num [MyPicarController.STEER]

/-- C5 (amended): for every interpretation of `atan`, every controller state
and all `alpha`, `beta`, `L`, `dt`, the call `STEER(speed, ...)` raises
`ZeroDivisionError` exactly when `speed = 0`: zero speed is not
special-cased, and the division `atan(dh*L/s)` with `s = 0` is precisely the
uncontrolled outcome of every zero-speed call (nonzero speed never raises). -/
theorem C5_zero_speed_raises (atanF : ℚ → ℚ) (c : MyPicarController)
    (speed alpha beta L dt : ℚ) :
    (MyPicarController.STEER atanF c speed alpha beta L dt).1
        = Except.error "ZeroDivisionError: float division by zero"
      ↔ speed = 0 := by
  unfold MyPicarController.STEER
  by_cases h : |speed| = 0
  · rw [abs_eq_zero] at h
    simp [h]
  · rw [abs_eq_zero] at h
    simp [abs_eq_zero, h]

/-- C6: `DIRECTION(alpha, dt)` is true exactly when
`|alpha| > pi/2 + 1e-4` (the fixed tolerance of the source); it depends
neither on `dt` nor on any controller state; and at the claim's probe points
`pi/2 - 0.001`, `pi/2 + 0.001` and `pi/2` it returns false, true and false
respectively. -/
theorem C6_direction_threshold :
    (∀ (c : MyPicarController) (alpha dt : ℚ),
        MyPicarController.DIRECTION c alpha dt = true ↔ |alpha| > mathPi / 2 + 1 / 10000)
  ∧ (∀ (c c2 : MyPicarController) (alpha dt dt2 : ℚ),
        MyPicarController.DIRECTION c alpha dt = MyPicarController.DIRECTION c2 alpha dt2)
  ∧ (∀ (c : MyPicarController) (dt : ℚ),
        MyPicarController.DIRECTION c (mathPi / 2 - 1 / 1000) dt = false
      ∧ MyPicarController.DIRECTION c (mathPi / 2 + 1 / 1000) dt = true
      ∧ MyPicarController.DIRECTION c (mathPi / 2) dt = false) := by
  refine ⟨?_, fun _ _ _ _ _ => rfl, ?_⟩
  · intro c alpha dt
    unfold MyPicarController.DIRECTION
    by_cases h : |alpha| > mathPi / 2 + 1 / 10000 <;> simp [h]
  · intro c dt
    have h2 : (0 : ℚ) < mathPi / 2 - 1 / 1000 := by norm_num [mathPi]
    have h3 : (0 : ℚ) < mathPi / 2 + 1 / 1000 := by norm_num [mathPi]
    have h4 : (0 : ℚ) < mathPi / 2 := by norm_num [mathPi]
    unfold MyPicarController.DIRECTION
    rw [abs_of_pos h2, abs_of_pos h3, abs_of_pos h4]
    refine ⟨?_, ?_, ?_⟩ <;> norm_num [mathPi]

/-- C7: `apply_controls(0, 5, 1)` issues exactly one backend `stop()` and no
set-speed call (its full backend trace is `forward`, `turn(5)`, `stop`); and
in general, for every valid direction, when the truncated unsigned speed is 0
the speed dispatch is a single `stop_motors()` stop with no set-speed, and
otherwise a single set-speed with the truncated unsigned speed and no stop. -/
theorem C7_zero_speed_halt :
    ((apply_controls hw0 0 5 1).1 = [Ev.bwForward, Ev.fwTurn 5, Ev.bwStop]
      ∧ (apply_controls hw0 0 5 1).1.countP isStop = 1
      ∧ (apply_controls hw0 0 5 1).1.countP isSetSpeed = 0)
  ∧ ∀ (hw : HW) (speed steer direction : ℚ),
      direction = 1 ∨ direction = -1 ∨ direction = 0 →
        (pyInt |speed| = 0 →
          (apply_controls hw speed steer direction).1.countP isStop = 1
        ∧ (apply_controls hw speed steer direction).1.countP isSetSpeed = 0)
      ∧ (pyInt |speed| ≠ 0 →
          (apply_controls hw speed steer direction).1.countP isSetSpeed = 1
        ∧ Ev.bwSetSpeed (pyInt |speed|) ∈ (apply_controls hw speed steer direction).1
        ∧ (apply_controls hw speed steer direction).1.countP isStop = 0) := by
  constructor
  · refine ⟨?_, ?_, ?_⟩ <;>
      norm_num [apply_controls, turn_wheels, turn_wheels_straight, stop_motors, hw0, pyInt,
        isStop, isSetSpeed]
  · intro hw speed steer direction hdir
    obtain ⟨h1, h2, h3⟩ := apply_controls_speed_dispatch hw speed steer direction hdir
    constructor
    · intro h0
      rw [h1, h2, if_pos h0, if_pos h0]
      exact ⟨rfl, rfl⟩
    · intro h0
      rw [h1, h2, if_neg h0, if_neg h0]
      exact ⟨rfl, h3 h0, rfl⟩

/-- C7 witness: the general clause of the zero-speed dispatch applied at
`apply_controls(0, 5, 1)` from the sample state. -/
theorem C7_zero_speed_halt_witness :
    (apply_controls hw0 0 5 1).1.countP isStop = 1
  ∧ (apply_controls hw0 0 5 1).1.countP isSetSpeed = 0 :=
  (C7_zero_speed_halt.2 hw0 0 5 1 (Or.inl rfl)).1 (by norm_num [pyInt])

/-- C8: `turn_wheels_straight(overshoot, delay)` performs exactly the
sequence turn to `+overshoot` (through `turn_wheels`, so the backend sees the
calibration offset added), sleep `delay`, turn to `-overshoot`, sleep
`delay`, backend `turn_straight()`, and sets the steering state to 0; a
second call from the resulting state produces the identical backend sequence
and again leaves the steering state 0. -/
theorem C8_homing_sequence (hw : HW) (overshoot delay : ℚ) :
    turn_wheels_straight hw overshoot delay
      = ({ hw with steering := some 0 },
         [Ev.fwTurn (overshoot + hw.straightAngle), Ev.sleep delay,
          Ev.fwTurn (-overshoot + hw.straightAngle), Ev.sleep delay, Ev.fwTurnStraight])
  ∧ (turn_wheels_straight (turn_wheels_straight hw overshoot delay).1 overshoot delay).2
      = (turn_wheels_straight hw overshoot delay).2
  ∧ (turn_wheels_straight (turn_wheels_straight hw overshoot delay).1 overshoot delay).1.steering
      = some 0 :=
  ⟨rfl, rfl, rfl⟩

/-- C9: `stop_motors()` emits exactly the single backend call `stop()` — no
turn, turn-straight, forward or backward — and leaves both the steering state
and the drive-direction state unchanged (only the speed field is written). -/
theorem C9_stop_motors_frame (hw : HW) :
    (stop_motors hw).2 = [Ev.bwStop]
  ∧ (stop_motors hw).1.steering = hw.steering
  ∧ (stop_motors hw).1.bwDirection = hw.bwDirection :=
  ⟨rfl, rfl, rfl⟩

/-- C10: for every speed of magnitude strictly between 0 and 1 and every
valid direction, `apply_controls` truncates the speed magnitude to the
integer 0 and therefore stops the drive: its trace has exactly one backend
`stop()` and no set-speed call. -/
theorem C10_fractional_speed_halts (hw : HW) (speed steer direction : ℚ)
    (hdir : direction = 1 ∨ direction = -1 ∨ direction = 0)
    (h0 : 0 < |speed|) (h1 : |speed| < 1) :
    pyInt |speed| = 0
  ∧ (apply_controls hw speed steer direction).1.countP isStop = 1
  ∧ (apply_controls hw speed steer direction).1.countP isSetSpeed = 0 := by
  have hz : pyInt |speed| = 0 := pyInt_eq_zero (abs_nonneg speed) h1
  obtain ⟨h2, h3, _⟩ := apply_controls_speed_dispatch hw speed steer direction hdir
  rw [h2, h3, if_pos hz, if_pos hz]
  exact ⟨hz, rfl, rfl⟩

/-- C10 witness: the truncation theorem applied at speed 1/2, steer 5,
direction 1 from the sample state. -/
theorem C10_fractional_speed_halts_witness :
    pyInt |(1 / 2 : ℚ)| = 0
  ∧ (apply_controls hw0 (1 / 2) 5 1).1.countP isStop = 1
  ∧ (apply_controls hw0 (1 / 2) 5 1).1.countP isSetSpeed = 0 :=
  C10_fractional_speed_halts hw0 (1 / 2) 5 1 (Or.inl rfl)
    (abs_pos.mpr (by norm_num)) (abs_lt.mpr (by norm_num))

end Picar
